import Mathlib

/-!
Shallow embedding of the ShowMyGpx sources: the GPX parser
(`src/lib/gpx-parser.ts`), the geometric helpers (`src/lib/utils.ts`),
the Street View placeholder generation, on-demand image loading and API
key validation (`src/lib/street-view-api.ts`), and the export dialog /
export utilities (`src/lib/export-utils.ts`, `ExportDialog` component).

JavaScript numbers are modelled as real numbers; `Math.atan2` is modelled
by the principal argument of a complex number, which agrees with `atan2`
everywhere (both return 0 at (0, 0)).  Optional TypeScript fields are
modelled as `Option`; JavaScript string truthiness (`s || d`) is modelled
by testing for the empty string.
-/

namespace ShowMyGpx

noncomputable section

/-- `toRadians` from `src/lib/utils.ts`: `degrees * (Math.PI / 180)`. -/
def toRadians (degrees : ℝ) : ℝ := degrees * (Real.pi / 180)

/-- Model of JavaScript `Math.atan2 y x`: the principal argument of the
complex number `x + y i`, which lies in `(-π, π]` and is `0` at `(0, 0)`. -/
def atan2 (y x : ℝ) : ℝ := Complex.arg ⟨x, y⟩

/-- `calculateDistance` from `src/lib/utils.ts`: Haversine distance in
meters between two coordinates given in degrees. -/
def calculateDistance (lat1 lon1 lat2 lon2 : ℝ) : ℝ :=
  let R : ℝ := 6371000
  let dLat := toRadians (lat2 - lat1)
  let dLon := toRadians (lon2 - lon1)
  let a :=
    Real.sin (dLat / 2) * Real.sin (dLat / 2) +
      Real.cos (toRadians lat1) * Real.cos (toRadians lat2) *
        Real.sin (dLon / 2) * Real.sin (dLon / 2)
  let c := 2 * atan2 (Real.sqrt a) (Real.sqrt (1 - a))
  R * c

/-- `calculateBearing` from `src/lib/utils.ts`: initial bearing in degrees.
The source returns `(bearing * 180) / Math.PI` directly, with no
normalization step. -/
def calculateBearing (lat1 lon1 lat2 lon2 : ℝ) : ℝ :=
  let dLon := toRadians (lon2 - lon1)
  let y := Real.sin dLon * Real.cos (toRadians lat2)
  let x :=
    Real.cos (toRadians lat1) * Real.sin (toRadians lat2) -
      Real.sin (toRadians lat1) * Real.cos (toRadians lat2) * Real.cos dLon
  let bearing := atan2 y x
  (bearing * 180) / Real.pi

/-- `GPXPoint` from `src/types` (`App.tsx`): latitude and longitude in
degrees, with optional elevation and time.  The elevation is
`Option (Option ℚ)`: the outer layer records whether an `ele` element was
present, the inner layer the `parseFloat` result (`none` models `NaN`).
The raw time text stands in for the JavaScript `Date`. -/
structure GPXPoint where
  lat : ℝ
  lon : ℝ
  ele : Option (Option ℚ) := none
  time : Option String := none

instance : Inhabited GPXPoint := ⟨{ lat := 0, lon := 0 }⟩

/-- The `for` loop of `samplePointsAtInterval`
(`src/lib/street-view-api.ts`): walks the points after the first one,
accumulating `calculateDistance` between consecutive input points into
`acc`; whenever the accumulated distance reaches `intervalDistance` the
current point is emitted and the accumulator resets to `0`.
(`prev` is `points[i - 1]`; the source's `lastSampledIndex` variable is
dead and omitted.) -/
def sampleAux (intervalDistance : ℝ) : GPXPoint → ℝ → List GPXPoint → List GPXPoint
  | _, _, [] => []
  | prev, acc, p :: ps =>
    let distance := calculateDistance prev.lat prev.lon p.lat p.lon
    let acc2 := acc + distance
    if intervalDistance ≤ acc2 then p :: sampleAux intervalDistance p 0 ps
    else sampleAux intervalDistance p acc2 ps

/-- `samplePointsAtInterval` from `src/lib/street-view-api.ts`: returns the
input unchanged when it has fewer than 2 points; otherwise always keeps the
first point, runs the sampling loop, and finally appends the last input
point unless the last sampled point already has its coordinates. -/
def samplePointsAtInterval (points : List GPXPoint) (intervalDistance : ℝ) :
    List GPXPoint :=
  match points with
  | [] => []
  | [p] => [p]
  | p0 :: p1 :: rest =>
    let sampledPoints := p0 :: sampleAux intervalDistance p0 0 (p1 :: rest)
    let lastPoint := (p0 :: p1 :: rest).getLast (List.cons_ne_nil _ _)
    let lastSampledPoint := sampledPoints.getLast (List.cons_ne_nil _ _)
    if lastSampledPoint.lat ≠ lastPoint.lat ∨ lastSampledPoint.lon ≠ lastPoint.lon then
      sampledPoints ++ [lastPoint]
    else
      sampledPoints

/-- `coordinates: { lat, lng }` of a `StreetViewImage` (`App.tsx`). -/
structure Coordinates where
  lat : ℝ
  lng : ℝ

/-- The payload of the `url` string built by `generateStreetViewURL`
(`src/lib/street-view-api.ts`): the query parameters of the Street View
Static API request.  The URL string is modelled by the data it encodes. -/
structure StreetViewURL where
  size : String
  lat : ℝ
  lng : ℝ
  heading : ℝ
  pitch : ℝ
  fov : ℝ
  key : String

/-- `generateStreetViewURL` from `src/lib/street-view-api.ts`. -/
def generateStreetViewURL (lat lng heading : ℝ) (apiKey : String)
    (size : String) (fov pitch : ℝ) : StreetViewURL :=
  { size := size, lat := lat, lng := lng, heading := heading,
    pitch := pitch, fov := fov, key := apiKey }

/-- `StreetViewImage` from `src/types` (`App.tsx`).  Optional fields
(`url?`, `heading?`, `pitch?`, `error?`, `isLoading?`) are `Option`s. -/
structure StreetViewImage where
  id : String
  url : Option StreetViewURL := none
  coordinates : Coordinates
  heading : Option ℝ := none
  pitch : Option ℝ := none
  distance : ℝ
  loaded : Bool
  error : Option String := none
  isLoading : Option Bool := none

instance : Inhabited StreetViewImage :=
  ⟨{ id := "", coordinates := ⟨0, 0⟩, distance := 0, loaded := false }⟩

/-- The image-building loop of `generateStreetViewPlaceholders`
(`src/lib/street-view-api.ts`): index `i` and the running `totalDistance`
are threaded through; the heading defaults to `0` and is overwritten with
`calculateBearing` to the next sampled point when one exists; from the
second image on, `calculateDistance` to the previous sampled point is
added to `totalDistance` first.  `ids` supplies the value of
`generateId()` for each index. -/
def buildImages (ids : ℕ → String) : ℕ → ℝ → List GPXPoint → List StreetViewImage
  | _, _, [] => []
  | i, totalDistance, [p] =>
    [{ id := ids i, coordinates := ⟨p.lat, p.lon⟩, heading := some 0,
       pitch := some 0, distance := totalDistance, loaded := false,
       isLoading := some false }]
  | i, totalDistance, p :: next :: rest =>
    { id := ids i, coordinates := ⟨p.lat, p.lon⟩,
      heading := some (calculateBearing p.lat p.lon next.lat next.lon),
      pitch := some 0, distance := totalDistance, loaded := false,
      isLoading := some false } ::
      buildImages ids (i + 1)
        (totalDistance + calculateDistance p.lat p.lon next.lat next.lon)
        (next :: rest)

/-- `generateStreetViewPlaceholders` from `src/lib/street-view-api.ts`:
throws (`Except.error`) on fewer than 2 points or an empty sample,
otherwise returns the images built from the sampled points. -/
def generateStreetViewPlaceholders (ids : ℕ → String) (points : List GPXPoint)
    (intervalDistance : ℝ) : Except String (List StreetViewImage) :=
  if points.length < 2 then
    .error "At least 2 points are required to generate Street View placeholders"
  else
    let sampledPoints := samplePointsAtInterval points intervalDistance
    if sampledPoints.length = 0 then
      .error "No valid points found for Street View placeholder generation"
    else
      .ok (buildImages ids 0 0 sampledPoints)

/-- `loadStreetViewImage` from `src/lib/street-view-api.ts`.  The guard
`!apiKey` is the empty-string test; `image.loaded || image.isLoading` uses
JavaScript truthiness (an absent `isLoading` is falsy).  The outcome of
awaiting `loadImage(url)` is an input, `fetchSucceeds`: on success the
image is returned with the url set and `loaded`, on failure with the
error message set.  A thrown `Error` is `Except.error`. -/
def loadStreetViewImage (image : StreetViewImage) (apiKey : String)
    (size : String) (fov : ℝ) (pitch : ℝ) (fetchSucceeds : Bool) :
    Except String StreetViewImage :=
  if apiKey = "" then .error "Google API key is required"
  else if image.loaded || image.isLoading.getD false then .ok image
  else
    let updatedImage := { image with isLoading := some true }
    let url := generateStreetViewURL image.coordinates.lat image.coordinates.lng
      (image.heading.getD 0) apiKey size fov pitch
    if fetchSucceeds then
      .ok { updatedImage with url := some url, loaded := true, isLoading := some false }
    else
      .ok { updatedImage with
              loaded := false
              isLoading := some false
              error := some "Failed to load Street View image" }

/-- The character class `[A-Za-z0-9_-]` of the key regex in
`validateApiKey` (`src/lib/street-view-api.ts`). -/
def isApiKeyChar (c : Char) : Bool :=
  c.isAlphanum || c = '_' || c = '-'

/-- `validateApiKey` from `src/lib/street-view-api.ts`: the test of
`/^[A-Za-z0-9_-]{35,45}$/`. -/
def validateApiKey (apiKey : String) : Bool :=
  (35 ≤ apiKey.length && apiKey.length ≤ 45) && apiKey.toList.all isApiKeyChar

/-- `ExportOptions` from `src/types` (`App.tsx`); the `format` union
`'zip' | 'individual'` is kept as the string. -/
structure ExportOptions where
  format : String
  includeMetadata : Bool
  imageQuality : String

/-- The filter `img => img.loaded && !img.error` used by `ExportDialog`
(`SuccessPage.tsx`) and the export utilities: `!img.error` is JavaScript
truthiness, so an absent or empty error string counts as error-free. -/
def isValidImage (img : StreetViewImage) : Bool :=
  img.loaded && (img.error.getD "" = "")

/-- The observable outcome of `ExportDialog.handleExport`
(`SuccessPage.tsx`): either the early `return` taken when no valid image
exists (no archive and no downloads are produced), or one of the two
export calls with the images it passes on. -/
inductive ExportOutcome where
  | nothingToExport
  | zipArchive (images : List StreetViewImage) (options : ExportOptions)
      (routeName : String)
  | individualFiles (images : List StreetViewImage) (routeName : String)

/-- `ExportDialog.handleExport` from `SuccessPage.tsx`: filters the images
to the valid ones, returns early when none remain, and otherwise invokes
`exportImagesAsZip` or `exportIndividualImages` on the filtered list. -/
def handleExport (images : List StreetViewImage) (options : ExportOptions)
    (routeName : String) : ExportOutcome :=
  let validImages := images.filter isValidImage
  if validImages.length = 0 then .nothingToExport
  else if options.format = "zip" then .zipArchive validImages options routeName
  else .individualFiles validImages routeName

/-- Numeric value of a run of decimal digits, most significant first. -/
def digitsVal (ds : List Char) : ℚ :=
  ds.foldl (fun a c => a * 10 + ((c.toNat - '0'.toNat : ℕ) : ℚ)) 0

/-- The exponent part after `e`/`E` in a JavaScript float literal: an
optional sign and a digit run; an empty digit run contributes exponent 0
(`parseFloat` then ignores the `e`, as for `"1e"`). -/
def parseExponent (cs : List Char) : ℤ :=
  let sign : ℤ := if cs.head? = some '-' then -1 else 1
  let rest := if cs.head? = some '-' ∨ cs.head? = some '+' then cs.tail else cs
  let ds := rest.takeWhile Char.isDigit
  if ds = [] then 0
  else sign * ((ds.foldl (fun a c => a * 10 + (c.toNat - '0'.toNat)) 0 : ℕ) : ℤ)

/-- Model of JavaScript `parseFloat`: skip leading whitespace, read an
optional sign, an integer digit run, an optional fraction after `.`, and
an optional exponent; return `none` (`NaN`) when no digit was read.
(The literals `Infinity`/`-Infinity` have no counterpart in `ℚ` and are
outside the model.) -/
def parseFloat (s : String) : Option ℚ :=
  let cs := s.toList.dropWhile Char.isWhitespace
  let sign : ℚ := if cs.head? = some '-' then -1 else 1
  let cs1 := if cs.head? = some '-' ∨ cs.head? = some '+' then cs.tail else cs
  let intDigits := cs1.takeWhile Char.isDigit
  let rest1 := cs1.dropWhile Char.isDigit
  let fracDigits := if rest1.head? = some '.' then rest1.tail.takeWhile Char.isDigit else []
  let rest2 := if rest1.head? = some '.' then rest1.tail.dropWhile Char.isDigit else rest1
  if intDigits = [] ∧ fracDigits = [] then none
  else
    let mantissa :=
      digitsVal intDigits + digitsVal fracDigits / (10 : ℚ) ^ fracDigits.length
    let expPart : ℤ :=
      if rest2.head? = some 'e' ∨ rest2.head? = some 'E' then parseExponent rest2.tail
      else 0
    some (sign * mantissa * (10 : ℚ) ^ expPart)

/-- JavaScript `s || '0'` on a nullable attribute/text string: `null` and
the empty string are falsy and give `'0'`. -/
def orZero (a : Option String) : String :=
  match a with
  | none => "0"
  | some s => if s = "" then "0" else s

/-- A `<trkpt>` (or `<wpt>`) element as the parser sees it: the raw
`lat`/`lon` attribute text (`none` when the attribute is absent) and the
raw text of the optional `ele` and `time` children. -/
structure TrkptElement where
  lat : Option String
  lon : Option String
  ele : Option String := none
  time : Option String := none

/-- The per-point body of `extractTracks` (`src/lib/gpx-parser.ts`):
`parseFloat(pointElement.getAttribute('lat') || '0')` and likewise for
`lon`; when either is `NaN` the point is skipped (`none`), otherwise the
`GPXPoint` is built, parsing the `ele` text when that element exists and
carrying the raw time text. -/
def parseTrkpt (e : TrkptElement) : Option GPXPoint :=
  match parseFloat (orZero e.lat), parseFloat (orZero e.lon) with
  | some la, some lo =>
    some { lat := (la : ℝ), lon := (lo : ℝ),
           ele := e.ele.map (fun t => parseFloat (orZero (some t))),
           time := e.time }
  | _, _ => none

/-- A `<trkseg>` element: its `<trkpt>` children in document order. -/
structure TrksegElement where
  trkpts : List TrkptElement

/-- A `<trk>` element: the raw text of its optional `<name>` child and its
`<trkseg>` children in document order. -/
structure TrkElement where
  name : Option String := none
  trksegs : List TrksegElement

/-- `GPXTrack` from `src/types` (`App.tsx`). -/
structure GPXTrack where
  name : Option String
  points : List GPXPoint

/-- JavaScript `textContent || undefined` for the track name: `null` and
the empty string become `undefined`. -/
def nameOrNone (a : Option String) : Option String :=
  match a with
  | none => none
  | some s => if s = "" then none else some s

/-- One track's point list in `extractTracks`: all `<trkpt>`s of all
`<trkseg>`s in order, each run through `parseTrkpt`, skipped ones
dropped. -/
def trackPoints (trk : TrkElement) : List GPXPoint :=
  (trk.trksegs.flatMap TrksegElement.trkpts).filterMap parseTrkpt

/-- The per-track body of `extractTracks`: keep the track exactly when at
least one point survived the filtering. -/
def extractTrk (trk : TrkElement) : Option GPXTrack :=
  let points := trackPoints trk
  if 0 < points.length then
    some { name := nameOrNone trk.name, points := points }
  else none

/-- `extractTracks` from `src/lib/gpx-parser.ts`, over the pre-parsed
`<trk>` elements of the document. -/
def extractTracks (trks : List TrkElement) : List GPXTrack :=
  trks.filterMap extractTrk

/-- The origin point, used as a concrete input. -/
def P0 : GPXPoint := { lat := 0, lon := 0 }

/-- A constant id supply for concrete runs of the generator. -/
def ids0 : ℕ → String := fun _ => "id"

/-- The placeholder built for `P0` at distance 0 with no successor. -/
def img0 : StreetViewImage :=
  { id := "id", coordinates := ⟨0, 0⟩, heading := some 0, pitch := some 0,
    distance := 0, loaded := false, isLoading := some false }

lemma atan2_zero_one : atan2 0 1 = 0 := by
  have h : (⟨1, 0⟩ : ℂ) = 1 := by
    apply Complex.ext <;> simp
  rw [atan2, h, Complex.arg_one]

lemma calculateDistance_self (la lo : ℝ) : calculateDistance la lo la lo = 0 := by
  simp [calculateDistance, toRadians, atan2_zero_one]

lemma sampleAux_P0 : sampleAux 1 P0 0 [P0] = [] := by
  norm_num [sampleAux, calculateDistance_self]

lemma sample_eval : samplePointsAtInterval [P0, P0] 1 = [P0] := by
  simp [samplePointsAtInterval, sampleAux_P0, List.getLast]

lemma generate_eval :
    generateStreetViewPlaceholders ids0 [P0, P0] 1 = Except.ok [img0] := by
  have hs := sample_eval
  simp only [generateStreetViewPlaceholders, hs]
  norm_num [buildImages, ids0, img0, P0]

lemma sampleAux_sublist (d : ℝ) (l : List GPXPoint) :
    ∀ (prev : GPXPoint) (acc : ℝ), (sampleAux d prev acc l).Sublist l := by
  induction l with
  | nil => intro prev acc; simp [sampleAux]
  | cons p ps ih =>
    intro prev acc
    simp only [sampleAux]
    split_ifs with h
    · exact (ih p 0).cons₂ p
    · exact (ih p _).cons p

lemma sampleAux_cons (d : ℝ) (prev : GPXPoint) (acc : ℝ) (p : GPXPoint)
    (ps : List GPXPoint) :
    sampleAux d prev acc (p :: ps) =
      if d ≤ acc + calculateDistance prev.lat prev.lon p.lat p.lon then
        p :: sampleAux d p 0 ps
      else sampleAux d p (acc + calculateDistance prev.lat prev.lon p.lat p.lon) ps :=
  rfl

lemma sampleAux_sublist_dropLast (d : ℝ) (l : List GPXPoint) :
    ∀ (prev : GPXPoint) (acc : ℝ) (x y : GPXPoint),
      (sampleAux d prev acc l).getLast? = some x → l.getLast? = some y →
      ¬(x.lat = y.lat ∧ x.lon = y.lon) →
      (sampleAux d prev acc l).Sublist l.dropLast := by
  induction l with
  | nil => intro prev acc x y hx hy hne; simp [sampleAux] at hx
  | cons p ps ih =>
    intro prev acc x y hx hy hne
    cases ps with
    | nil =>
      rw [sampleAux_cons] at hx ⊢
      by_cases h : d ≤ acc + calculateDistance prev.lat prev.lon p.lat p.lon
      · rw [if_pos h] at hx
        simp only [sampleAux] at hx
        simp at hx hy
        subst hx
        subst hy
        exact absurd ⟨rfl, rfl⟩ hne
      · rw [if_neg h]
        simp [sampleAux]
    | cons q l' =>
      rw [List.getLast?_cons_cons] at hy
      rw [sampleAux_cons] at hx ⊢
      rw [List.dropLast_cons₂]
      by_cases h : d ≤ acc + calculateDistance prev.lat prev.lon p.lat p.lon
      · rw [if_pos h] at hx ⊢
        rcases hS : sampleAux d p 0 (q :: l') with _ | ⟨s, ss⟩
        · exact (List.nil_sublist _).cons₂ p
        · rw [hS] at hx
          rw [List.getLast?_cons_cons] at hx
          have hsub : (sampleAux d p 0 (q :: l')).Sublist (q :: l').dropLast := by
            refine ih p 0 x y ?_ hy hne
            rw [hS]
            exact hx
          rw [← hS]
          exact hsub.cons₂ p
      · rw [if_neg h] at hx ⊢
        exact (ih p _ x y hx hy hne).cons p

/-- Claim C10: for every input point sequence and every interval distance,
the sampler's output is an ordered subsequence (a `List.Sublist`) of the
input: every output point is an input point, output order follows input
order, and no synthesized coordinates are produced. -/
theorem samplePointsAtInterval_sublist (points : List GPXPoint) (d : ℝ) :
    (samplePointsAtInterval points d).Sublist points := by
  rcases points with _ | ⟨p0, _ | ⟨p1, rest⟩⟩
  · simp [samplePointsAtInterval]
  · simp [samplePointsAtInterval]
  · simp only [samplePointsAtInterval]
    split_ifs with hc
    · rw [List.cons_append]
      have hyL : (p0 :: p1 :: rest).getLast (List.cons_ne_nil _ _) =
          (p1 :: rest).getLast (List.cons_ne_nil _ _) :=
        List.getLast_cons (List.cons_ne_nil _ _)
      refine List.Sublist.cons₂ p0 ?_
      rw [hyL]
      have hS : (sampleAux d p0 0 (p1 :: rest)).Sublist (p1 :: rest).dropLast := by
        rcases hS0 : sampleAux d p0 0 (p1 :: rest) with _ | ⟨s, ss⟩
        · exact List.nil_sublist _
        · have hne : sampleAux d p0 0 (p1 :: rest) ≠ [] := by
            rw [hS0]; exact List.cons_ne_nil _ _
          rw [← hS0]
          refine sampleAux_sublist_dropLast d (p1 :: rest) p0 0
            ((sampleAux d p0 0 (p1 :: rest)).getLast hne)
            ((p1 :: rest).getLast (List.cons_ne_nil _ _))
            (List.getLast?_eq_getLast _ _) (List.getLast?_eq_getLast _ _) ?_
          rintro ⟨e1, e2⟩
          have hgl : (p0 :: sampleAux d p0 0 (p1 :: rest)).getLast
              (List.cons_ne_nil _ _) =
              (sampleAux d p0 0 (p1 :: rest)).getLast hne := List.getLast_cons hne
          rw [hgl, hyL] at hc
          rcases hc with hc | hc
          · exact hc e1
          · exact hc e2
      have happ := hS.append (List.Sublist.refl
        [(p1 :: rest).getLast (List.cons_ne_nil _ _)])
      exact happ.trans
        (by rw [List.dropLast_append_getLast (List.cons_ne_nil p1 rest)])
    · exact (sampleAux_sublist d (p1 :: rest) p0 0).cons₂ p0

/-- Claim C1: for every point sequence of length at least 2 and every
positive interval distance, the sampled sequence is non-empty, its first
element is the first input point, and its last element has the
coordinates of the last input point. -/
theorem samplePointsAtInterval_first_last (points : List GPXPoint) (d : ℝ)
    (h2 : 2 ≤ points.length) (_hd : 0 < d) :
    samplePointsAtInterval points d ≠ [] ∧
    (samplePointsAtInterval points d).head? = points.head? ∧
    ((samplePointsAtInterval points d).getLastD default).lat =
      (points.getLastD default).lat ∧
    ((samplePointsAtInterval points d).getLastD default).lon =
      (points.getLastD default).lon := by
  rcases points with _ | ⟨p0, _ | ⟨p1, rest⟩⟩
  · simp at h2
  · simp at h2
  · simp only [samplePointsAtInterval]
    have hpts : ((p0 :: p1 :: rest).getLastD default) =
        (p0 :: p1 :: rest).getLast (List.cons_ne_nil _ _) := by
      rw [List.getLastD_eq_getLast?, List.getLast?_eq_getLast _ (List.cons_ne_nil _ _),
        Option.getD_some]
    split_ifs with hc
    · refine ⟨by simp, by simp, ?_, ?_⟩
      · rw [hpts, List.getLastD_eq_getLast?, List.getLast?_concat, Option.getD_some]
      · rw [hpts, List.getLastD_eq_getLast?, List.getLast?_concat, Option.getD_some]
    · push_neg at hc
      have hsam : ((p0 :: sampleAux d p0 0 (p1 :: rest)).getLastD default) =
          (p0 :: sampleAux d p0 0 (p1 :: rest)).getLast (List.cons_ne_nil _ _) := by
        rw [List.getLastD_eq_getLast?, List.getLast?_eq_getLast _ (List.cons_ne_nil _ _),
          Option.getD_some]
      exact ⟨by simp, rfl, by rw [hpts, hsam]; exact hc.1, by rw [hpts, hsam]; exact hc.2⟩

lemma buildImages_length (ids : ℕ → String) (l : List GPXPoint) :
    ∀ (i0 : ℕ) (t0 : ℝ), (buildImages ids i0 t0 l).length = l.length := by
  induction l with
  | nil => intro i0 t0; simp [buildImages]
  | cons p ps ih =>
    intro i0 t0
    cases ps with
    | nil => simp [buildImages]
    | cons q l' =>
      simp only [buildImages, List.length_cons]
      rw [ih]
      simp

lemma buildImages_coords (ids : ℕ → String) (l : List GPXPoint) :
    ∀ (i0 : ℕ) (t0 : ℝ) (i : ℕ), i < l.length →
      ((buildImages ids i0 t0 l).getD i default).coordinates =
        ⟨(l.getD i default).lat, (l.getD i default).lon⟩ := by
  induction l with
  | nil => intro i0 t0 i hi; simp at hi
  | cons p ps ih =>
    intro i0 t0 i hi
    cases ps with
    | nil =>
      cases i with
      | zero => simp [buildImages]
      | succ j => simp at hi
    | cons q l' =>
      cases i with
      | zero => simp [buildImages]
      | succ j =>
        simp only [buildImages, List.getD_cons_succ]
        exact ih _ _ j (by simpa using hi)

lemma buildImages_distance (ids : ℕ → String) (l : List GPXPoint) :
    ∀ (i0 : ℕ) (t0 : ℝ) (i : ℕ), i < l.length →
      ((buildImages ids i0 t0 l).getD i default).distance =
        t0 + ∑ k ∈ Finset.range i,
          calculateDistance (l.getD k default).lat (l.getD k default).lon
            (l.getD (k + 1) default).lat (l.getD (k + 1) default).lon := by
  induction l with
  | nil => intro i0 t0 i hi; simp at hi
  | cons p ps ih =>
    intro i0 t0 i hi
    cases ps with
    | nil =>
      cases i with
      | zero => simp [buildImages]
      | succ j => simp at hi
    | cons q l' =>
      cases i with
      | zero => simp [buildImages]
      | succ j =>
        simp only [buildImages, List.getD_cons_succ]
        rw [ih _ _ j (by simpa using hi)]
        rw [Finset.sum_range_succ']
        simp only [List.getD_cons_succ, List.getD_cons_zero]
        ring

lemma buildImages_heading (ids : ℕ → String) (l : List GPXPoint) :
    ∀ (i0 : ℕ) (t0 : ℝ) (i : ℕ), i + 1 < l.length →
      ((buildImages ids i0 t0 l).getD i default).heading =
        some (calculateBearing (l.getD i default).lat (l.getD i default).lon
          (l.getD (i + 1) default).lat (l.getD (i + 1) default).lon) := by
  induction l with
  | nil => intro i0 t0 i hi; simp at hi
  | cons p ps ih =>
    intro i0 t0 i hi
    cases ps with
    | nil => simp at hi
    | cons q l' =>
      cases i with
      | zero => simp [buildImages]
      | succ j =>
        simp only [buildImages, List.getD_cons_succ]
        exact ih _ _ j (by simpa using hi)

lemma buildImages_last_heading (ids : ℕ → String) (l : List GPXPoint) :
    ∀ (i0 : ℕ) (t0 : ℝ), l ≠ [] →
      ((buildImages ids i0 t0 l).getLastD default).heading = some 0 := by
  induction l with
  | nil => intro i0 t0 h; exact absurd rfl h
  | cons p ps ih =>
    intro i0 t0 _
    cases ps with
    | nil => simp [buildImages]
    | cons q l' =>
      simp only [buildImages]
      rw [List.getLastD_cons]
      have hne : buildImages ids (i0 + 1)
          (t0 + calculateDistance p.lat p.lon q.lat q.lon) (q :: l') ≠ [] := by
        intro hcon
        have := buildImages_length ids (q :: l') (i0 + 1)
          (t0 + calculateDistance p.lat p.lon q.lat q.lon)
        rw [hcon] at this
        simp at this
      have hfix : ∀ (L : List StreetViewImage) (d1 d2 : StreetViewImage), L ≠ [] →
          L.getLastD d1 = L.getLastD d2 := by
        intro L d1 d2 hL
        rw [List.getLastD_eq_getLast?, List.getLastD_eq_getLast?,
          List.getLast?_eq_getLast _ hL, Option.getD_some, Option.getD_some]
      rw [hfix _ _ default hne]
      exact ih _ _ (List.cons_ne_nil _ _)

lemma generate_eq_ok {ids : ℕ → String} {points : List GPXPoint} {d : ℝ}
    {L : List StreetViewImage}
    (h : generateStreetViewPlaceholders ids points d = Except.ok L) :
    L = buildImages ids 0 0 (samplePointsAtInterval points d) := by
  simp only [generateStreetViewPlaceholders] at h
  split_ifs at h
  exact (Except.ok.inj h).symm

/-- Claim C2: in every successfully generated placeholder sequence, the
`distance` field of viewpoint `i` is the running sum of
`calculateDistance` between consecutive output viewpoints `0..i` (so
viewpoint 0 has distance 0), rather than the distance accumulated along
the original dense input walk. -/
theorem generate_distance_is_sampled_sum (ids : ℕ → String)
    (points : List GPXPoint) (d : ℝ) (L : List StreetViewImage)
    (h : generateStreetViewPlaceholders ids points d = Except.ok L)
    (i : ℕ) (hi : i < L.length) :
    (L.getD i default).distance =
      ∑ k ∈ Finset.range i,
        calculateDistance (L.getD k default).coordinates.lat
          (L.getD k default).coordinates.lng
          (L.getD (k + 1) default).coordinates.lat
          (L.getD (k + 1) default).coordinates.lng := by
  have hL := generate_eq_ok h
  subst hL
  set s := samplePointsAtInterval points d with hs
  have hlen := buildImages_length ids s 0 0
  rw [hlen] at hi
  rw [buildImages_distance ids s 0 0 i hi, zero_add]
  refine Finset.sum_congr rfl ?_
  intro k hk
  have hk1 : k + 1 < s.length := by
    have := Finset.mem_range.mp hk
    omega
  have hk0 : k < s.length := by omega
  rw [buildImages_coords ids s 0 0 k hk0, buildImages_coords ids s 0 0 (k + 1) hk1]

/-- Claim C3 (amended): in every successfully generated placeholder
sequence, each viewpoint `i` with a successor has
`heading = some (calculateBearing point_i point_(i+1))`, and the final
viewpoint has `heading = some 0` — the loop's default value — rather than
an absent heading. -/
theorem generate_heading_spec (ids : ℕ → String) (points : List GPXPoint)
    (d : ℝ) (L : List StreetViewImage)
    (h : generateStreetViewPlaceholders ids points d = Except.ok L) :
    (∀ i, i + 1 < L.length →
      (L.getD i default).heading =
        some (calculateBearing (L.getD i default).coordinates.lat
          (L.getD i default).coordinates.lng
          (L.getD (i + 1) default).coordinates.lat
          (L.getD (i + 1) default).coordinates.lng)) ∧
    (L ≠ [] → (L.getLastD default).heading = some 0) := by
  have hL := generate_eq_ok h
  subst hL
  set s := samplePointsAtInterval points d with hs
  have hlen := buildImages_length ids s 0 0
  constructor
  · intro i hi
    rw [hlen] at hi
    have hi0 : i < s.length := by omega
    rw [buildImages_heading ids s 0 0 i hi,
      buildImages_coords ids s 0 0 i hi0, buildImages_coords ids s 0 0 (i + 1) hi]
  · intro hne
    have hsne : s ≠ [] := by
      intro hcon
      apply hne
      rw [hcon]
      rfl
    exact buildImages_last_heading ids s 0 0 hsne

/-- Witness for claim C1 at the concrete two-point route `[P0, P0]` with
interval distance 1. -/
theorem samplePointsAtInterval_first_last_witness :
    2 ≤ ([P0, P0] : List GPXPoint).length ∧ (0 : ℝ) < 1 ∧
    (samplePointsAtInterval [P0, P0] 1 ≠ [] ∧
      (samplePointsAtInterval [P0, P0] 1).head? = ([P0, P0] : List GPXPoint).head? ∧
      ((samplePointsAtInterval [P0, P0] 1).getLastD default).lat =
        (([P0, P0] : List GPXPoint).getLastD default).lat ∧
      ((samplePointsAtInterval [P0, P0] 1).getLastD default).lon =
        (([P0, P0] : List GPXPoint).getLastD default).lon) :=
  ⟨by simp, by norm_num,
    samplePointsAtInterval_first_last [P0, P0] 1 (by simp) (by norm_num)⟩

/-- Witness for claim C2 at the concrete two-point route `[P0, P0]`:
the single generated viewpoint has distance equal to the empty sum. -/
theorem generate_distance_witness :
    generateStreetViewPlaceholders ids0 [P0, P0] 1 = Except.ok [img0] ∧
    (0 : ℕ) < ([img0] : List StreetViewImage).length ∧
    (([img0] : List StreetViewImage).getD 0 default).distance =
      ∑ k ∈ Finset.range 0,
        calculateDistance
          (([img0] : List StreetViewImage).getD k default).coordinates.lat
          (([img0] : List StreetViewImage).getD k default).coordinates.lng
          (([img0] : List StreetViewImage).getD (k + 1) default).coordinates.lat
          (([img0] : List StreetViewImage).getD (k + 1) default).coordinates.lng :=
  ⟨generate_eval, by simp,
    generate_distance_is_sampled_sum ids0 [P0, P0] 1 [img0] generate_eval 0 (by simp)⟩

/-- Witness for the amended claim C3 at the concrete two-point route
`[P0, P0]`. -/
theorem generate_heading_spec_witness :
    generateStreetViewPlaceholders ids0 [P0, P0] 1 = Except.ok [img0] ∧
    ((∀ i, i + 1 < ([img0] : List StreetViewImage).length →
      (([img0] : List StreetViewImage).getD i default).heading =
        some (calculateBearing
          (([img0] : List StreetViewImage).getD i default).coordinates.lat
          (([img0] : List StreetViewImage).getD i default).coordinates.lng
          (([img0] : List StreetViewImage).getD (i + 1) default).coordinates.lat
          (([img0] : List StreetViewImage).getD (i + 1) default).coordinates.lng)) ∧
    (([img0] : List StreetViewImage) ≠ [] →
      (([img0] : List StreetViewImage).getLastD default).heading = some 0)) :=
  ⟨generate_eval, generate_heading_spec ids0 [P0, P0] 1 [img0] generate_eval⟩

/-- Claim C3, counterexample: generating placeholders for the two-point
route `[P0, P0]` yields a single (hence final) viewpoint whose `heading`
field is present and equal to `some 0` — the final viewpoint does have a
heading defined, contrary to the claim. -/
theorem generate_last_heading_cex :
    generateStreetViewPlaceholders ids0 [P0, P0] 1 = Except.ok [img0] ∧
    ([img0].getLastD default).heading = some 0 :=
  ⟨generate_eval, rfl⟩

lemma atan2_neg_one_zero : atan2 (-1) 0 = -(Real.pi / 2) := by
  have h : (⟨0, -1⟩ : ℂ) = -Complex.I := by
    apply Complex.ext <;> simp
  rw [atan2, h, Complex.arg_neg_I]

/-- Claim C4, counterexample: the bearing from `(0, 0)` to `(0, -90)` is
`-90`, a negative value, so `calculateBearing` does not return values in
`[0, 360)`. -/
theorem calculateBearing_negative_cex :
    calculateBearing 0 0 0 (-90) = -90 ∧ ¬ (0 : ℝ) ≤ calculateBearing 0 0 0 (-90) := by
  have h1 : toRadians (-90 - 0) = -(Real.pi / 2) := by
    rw [toRadians]; ring
  have h2 : toRadians 0 = 0 := by
    rw [toRadians]; ring
  have hval : calculateBearing 0 0 0 (-90) = -90 := by
    simp only [calculateBearing, h1, h2]
    simp only [Real.sin_neg, Real.sin_pi_div_two, Real.cos_zero, Real.sin_zero,
      neg_mul, one_mul, mul_zero, zero_mul, zero_sub, sub_zero, mul_one, neg_zero]
    rw [atan2_neg_one_zero]
    field_simp
    ring
  exact ⟨hval, by rw [hval]; norm_num⟩

/-- Claim C4 (amended): `calculateBearing` always returns a value in the
interval `(-180, 180]` — the scaled range of `atan2` — and is not
normalized to `[0, 360)`. -/
theorem calculateBearing_range (lat1 lon1 lat2 lon2 : ℝ) :
    -180 < calculateBearing lat1 lon1 lat2 lon2 ∧
    calculateBearing lat1 lon1 lat2 lon2 ≤ 180 := by
  have hpi := Real.pi_pos
  have harg := Complex.arg_mem_Ioc
    (⟨Real.cos (toRadians lat1) * Real.sin (toRadians lat2) -
        Real.sin (toRadians lat1) * Real.cos (toRadians lat2) *
          Real.cos (toRadians (lon2 - lon1)),
      Real.sin (toRadians (lon2 - lon1)) * Real.cos (toRadians lat2)⟩ : ℂ)
  rw [Set.mem_Ioc] at harg
  simp only [calculateBearing, atan2]
  constructor
  · rw [lt_div_iff₀ hpi]
    have := mul_lt_mul_of_pos_right harg.1 (by norm_num : (0 : ℝ) < 180)
    calc (-180 : ℝ) * Real.pi = -Real.pi * 180 := by ring
    _ < _ := this
  · rw [div_le_iff₀ hpi]
    have := mul_le_mul_of_nonneg_right harg.2 (by norm_num : (0 : ℝ) ≤ 180)
    calc _ ≤ Real.pi * 180 := this
    _ = 180 * Real.pi := by ring

/-- A viewpoint already loaded, used as a concrete input. -/
def imgDone : StreetViewImage :=
  { id := "a", coordinates := ⟨1, 2⟩, distance := 3, loaded := true }

/-- A viewpoint neither loaded nor loading, used as a concrete input. -/
def imgFresh : StreetViewImage :=
  { id := "b", coordinates := ⟨0, 0⟩, distance := 0, loaded := false }

/-- The record produced by loading `imgFresh` with key `"bad"`. -/
def imgFetched : StreetViewImage :=
  { id := "b", url := some (generateStreetViewURL 0 0 0 "bad" "640x640" 90 0),
    coordinates := ⟨0, 0⟩, distance := 0, loaded := true, isLoading := some false }

/-- Claim C5 (amended): when the credential is present (non-empty), a
viewpoint that is already loaded or loading is returned unchanged by
`loadStreetViewImage`, independently of the fetch outcome — no state
transition and no fetch. -/
theorem loadStreetViewImage_noop (image : StreetViewImage) (apiKey size : String)
    (fov pitch : ℝ) (fetchSucceeds : Bool) (hkey : apiKey ≠ "")
    (hstate : image.loaded = true ∨ image.isLoading.getD false = true) :
    loadStreetViewImage image apiKey size fov pitch fetchSucceeds =
      Except.ok image := by
  have hb : (image.loaded || image.isLoading.getD false) = true := by
    rcases hstate with h | h <;> simp [h]
  simp only [loadStreetViewImage]
  rw [if_neg hkey, if_pos hb]

/-- Witness for the amended claim C5 at a concrete loaded viewpoint and a
concrete non-empty key. -/
theorem loadStreetViewImage_noop_witness :
    ("key" : String) ≠ "" ∧
    (imgDone.loaded = true ∨ imgDone.isLoading.getD false = true) ∧
    loadStreetViewImage imgDone "key" "640x640" 90 0 true = Except.ok imgDone :=
  ⟨by decide, Or.inl rfl,
    loadStreetViewImage_noop imgDone "key" "640x640" 90 0 true (by decide) (Or.inl rfl)⟩

/-- Claim C5, counterexample: with an absent (empty) credential,
`loadStreetViewImage` on an already-loaded viewpoint is not a no-op — the
missing-credential check runs first and the call fails instead of
returning the record. -/
theorem loadStreetViewImage_loaded_empty_key_cex :
    loadStreetViewImage imgDone "" "640x640" 90 0 true =
      Except.error "Google API key is required" ∧
    loadStreetViewImage imgDone "" "640x640" 90 0 true ≠ Except.ok imgDone := by
  refine ⟨rfl, ?_⟩
  intro hcon
  rw [show loadStreetViewImage imgDone "" "640x640" 90 0 true =
    Except.error "Google API key is required" from rfl] at hcon
  exact Except.noConfusion hcon

/-- Claim C6 (amended): with an absent (empty) credential,
`loadStreetViewImage` fails with the missing-credential error for every
viewpoint and fetch outcome, returning no updated record (no transition
to loading, no fetch). -/
theorem loadStreetViewImage_missing_credential (image : StreetViewImage)
    (size : String) (fov pitch : ℝ) (fetchSucceeds : Bool) :
    loadStreetViewImage image "" size fov pitch fetchSucceeds =
      Except.error "Google API key is required" := by
  simp [loadStreetViewImage]

/-- Claim C6, counterexample: for a present but syntactically invalid
credential (`"bad"` fails `validateApiKey`), `loadStreetViewImage` does
not fail — it proceeds to fetch and transitions the viewpoint's state,
because the resolve path never format-checks the key. -/
theorem loadStreetViewImage_invalid_key_cex :
    validateApiKey "bad" = false ∧
    loadStreetViewImage imgFresh "bad" "640x640" 90 0 true =
      Except.ok imgFetched ∧
    imgFetched.loaded = true ∧ imgFresh.loaded = false ∧
    imgFetched.url = some (generateStreetViewURL 0 0 0 "bad" "640x640" 90 0) :=
  ⟨by decide, rfl, rfl, rfl, rfl⟩

/-- Concrete export options, used as a concrete input. -/
def optsZip : ExportOptions :=
  { format := "zip", includeMetadata := true, imageQuality := "high" }

/-- Claim C7: when the viewpoints filtered to loaded, error-free entries
are empty, the export handler takes its early return — no zip export and
no individual downloads are started, and no archive is produced. -/
theorem handleExport_nothingToExport (images : List StreetViewImage)
    (options : ExportOptions) (routeName : String)
    (h : images.filter isValidImage = []) :
    handleExport images options routeName = ExportOutcome.nothingToExport := by
  simp [handleExport, h]

/-- Witness for claim C7 at a concrete unloaded viewpoint list. -/
theorem handleExport_nothingToExport_witness :
    [imgFresh].filter isValidImage = [] ∧
    handleExport [imgFresh] optsZip "gpx-route" = ExportOutcome.nothingToExport :=
  ⟨rfl, handleExport_nothingToExport [imgFresh] optsZip "gpx-route" rfl⟩

lemma parseFloat_empty : parseFloat "" = none := by
  simp [parseFloat]

lemma parseFloat_zero : parseFloat "0" = some 0 := by
  have h1 : "0".toList = ['0'] := rfl
  have hw : ('0').isWhitespace = false := by decide
  have hd : ('0').isDigit = true := by decide
  have hc : (('0').toNat - ('0').toNat : ℕ) = 0 := by decide
  simp only [parseFloat, h1]
  norm_num [List.dropWhile, List.takeWhile, digitsVal, hw, hd, hc]

lemma parseFloat_one : parseFloat "1" = some 1 := by
  have h1 : "1".toList = ['1'] := rfl
  have hw : ('1').isWhitespace = false := by decide
  have hd : ('1').isDigit = true := by decide
  have hc : (('1').toNat - ('0').toNat : ℕ) = 1 := by decide
  simp only [parseFloat, h1]
  norm_num [List.dropWhile, List.takeWhile, digitsVal, hw, hd, hc]
  simp

lemma parseFloat_three : parseFloat "3" = some 3 := by
  have h1 : "3".toList = ['3'] := rfl
  have hw : ('3').isWhitespace = false := by decide
  have hd : ('3').isDigit = true := by decide
  have hc : (('3').toNat - ('0').toNat : ℕ) = 3 := by decide
  simp only [parseFloat, h1]
  norm_num [List.dropWhile, List.takeWhile, digitsVal, hw, hd, hc]
  simp

lemma parseFloat_x : parseFloat "x" = none := by
  have h1 : "x".toList = ['x'] := rfl
  have hw : ('x').isWhitespace = false := by decide
  have hd : ('x').isDigit = false := by decide
  simp only [parseFloat, h1]
  norm_num [List.dropWhile, List.takeWhile, hw, hd]

lemma trackPoints_drop_bad (nm : Option String) (segs₁ segs₂ : List TrksegElement)
    (pts₁ pts₂ : List TrkptElement) (e : TrkptElement) (hbad : parseTrkpt e = none) :
    trackPoints ⟨nm, segs₁ ++ ⟨pts₁ ++ e :: pts₂⟩ :: segs₂⟩ =
      trackPoints ⟨nm, segs₁ ++ ⟨pts₁ ++ pts₂⟩ :: segs₂⟩ := by
  simp only [trackPoints, List.flatMap_append, List.flatMap_cons,
    List.filterMap_append, List.filterMap_cons_none hbad]

/-- Claim C8: a track point whose `lat` or `lon` text does not parse is
silently dropped — the parsed document is the same as if the point were
absent; a track that keeps at least one valid point still contributes a
`GPXTrack` to the result; and a track whose points all drop out is
omitted from the result rather than reported as an error. -/
theorem extractTracks_bad_point_spec (T₁ T₂ : List TrkElement)
    (nm : Option String) (segs₁ segs₂ : List TrksegElement)
    (pts₁ pts₂ : List TrkptElement) (e : TrkptElement)
    (hbad : parseTrkpt e = none) :
    extractTracks (T₁ ++ (⟨nm, segs₁ ++ ⟨pts₁ ++ e :: pts₂⟩ :: segs₂⟩ : TrkElement) :: T₂) =
      extractTracks (T₁ ++ (⟨nm, segs₁ ++ ⟨pts₁ ++ pts₂⟩ :: segs₂⟩ : TrkElement) :: T₂) ∧
    (trackPoints ⟨nm, segs₁ ++ ⟨pts₁ ++ e :: pts₂⟩ :: segs₂⟩ ≠ [] →
      (⟨nameOrNone nm, trackPoints ⟨nm, segs₁ ++ ⟨pts₁ ++ e :: pts₂⟩ :: segs₂⟩⟩ : GPXTrack) ∈
        extractTracks (T₁ ++ (⟨nm, segs₁ ++ ⟨pts₁ ++ e :: pts₂⟩ :: segs₂⟩ : TrkElement) :: T₂)) ∧
    (trackPoints ⟨nm, segs₁ ++ ⟨pts₁ ++ e :: pts₂⟩ :: segs₂⟩ = [] →
      extractTracks (T₁ ++ (⟨nm, segs₁ ++ ⟨pts₁ ++ e :: pts₂⟩ :: segs₂⟩ : TrkElement) :: T₂) =
        extractTracks T₁ ++ extractTracks T₂) := by
  have hAB : extractTrk ⟨nm, segs₁ ++ ⟨pts₁ ++ e :: pts₂⟩ :: segs₂⟩ =
      extractTrk ⟨nm, segs₁ ++ ⟨pts₁ ++ pts₂⟩ :: segs₂⟩ := by
    simp only [extractTrk, trackPoints_drop_bad nm segs₁ segs₂ pts₁ pts₂ e hbad]
  refine ⟨?_, ?_, ?_⟩
  · simp only [extractTracks, List.filterMap_append, List.filterMap_cons, hAB]
  · intro h
    have hA : extractTrk ⟨nm, segs₁ ++ ⟨pts₁ ++ e :: pts₂⟩ :: segs₂⟩ =
        some ⟨nameOrNone nm, trackPoints ⟨nm, segs₁ ++ ⟨pts₁ ++ e :: pts₂⟩ :: segs₂⟩⟩ := by
      simp only [extractTrk]
      rw [if_pos (List.length_pos.mpr h)]
    exact List.mem_filterMap.mpr
      ⟨_, List.mem_append_right _ (List.mem_cons_self _ _), hA⟩
  · intro h
    have hA : extractTrk ⟨nm, segs₁ ++ ⟨pts₁ ++ e :: pts₂⟩ :: segs₂⟩ = none := by
      simp [extractTrk, h]
    simp [extractTracks, List.filterMap_append, List.filterMap_cons, hA]

/-- A point element whose coordinates both parse, used as a concrete
input. -/
def ptGood : TrkptElement := { lat := some "1", lon := some "2" }

/-- A point element whose `lon` text is non-numeric, used as a concrete
input. -/
def ptBad : TrkptElement := { lat := some "1", lon := some "x" }

lemma parseTrkpt_ptBad : parseTrkpt ptBad = none := by
  simp [parseTrkpt, ptBad, orZero, parseFloat_one, parseFloat_x]

/-- Witness for claim C8 at a concrete one-track document whose second
point has a non-numeric longitude. -/
theorem extractTracks_bad_point_witness :
    parseTrkpt ptBad = none ∧
    extractTracks ([] ++ (⟨none, [] ++ (⟨[ptGood] ++ ptBad :: []⟩ : TrksegElement) :: []⟩ : TrkElement) :: []) =
      extractTracks ([] ++ (⟨none, [] ++ (⟨[ptGood] ++ []⟩ : TrksegElement) :: []⟩ : TrkElement) :: []) :=
  ⟨parseTrkpt_ptBad,
    (extractTracks_bad_point_spec [] [] none [] [] [ptGood] [] ptBad parseTrkpt_ptBad).1⟩

/-- Claim C9: a track point element whose `lat` (or `lon`, or both)
attribute is entirely absent is kept, with `0` substituted for the missing
coordinate — `getAttribute` returns `null`, `null || '0'` is `'0'`, and
`parseFloat '0'` is `0`, so the `isNaN` guard does not drop the point. -/
theorem parseTrkpt_missing_attr (s : String) (q : ℚ) (ele time : Option String)
    (hq : parseFloat s = some q) :
    parseTrkpt ⟨none, some s, ele, time⟩ =
      some ⟨0, (q : ℝ), ele.map (fun t => parseFloat (orZero (some t))), time⟩ ∧
    parseTrkpt ⟨some s, none, ele, time⟩ =
      some ⟨(q : ℝ), 0, ele.map (fun t => parseFloat (orZero (some t))), time⟩ ∧
    parseTrkpt ⟨none, none, ele, time⟩ =
      some ⟨0, 0, ele.map (fun t => parseFloat (orZero (some t))), time⟩ := by
  have h0 : parseFloat (orZero none) = some 0 := parseFloat_zero
  by_cases hse : s = ""
  · rw [hse] at hq
    rw [parseFloat_empty] at hq
    exact absurd hq (by simp)
  · have hos : orZero (some s) = s := by simp [orZero, hse]
    refine ⟨?_, ?_, ?_⟩ <;> simp [parseTrkpt, h0, hos, hq]

/-- Witness for claim C9 at a concrete element with no `lat` attribute and
longitude text `"3"`. -/
theorem parseTrkpt_missing_attr_witness :
    parseFloat "3" = some 3 ∧
    parseTrkpt ⟨none, some "3", none, none⟩ = some ⟨0, ((3 : ℚ) : ℝ), none, none⟩ :=
  ⟨parseFloat_three,
    by simpa using (parseTrkpt_missing_attr "3" 3 none none parseFloat_three).1⟩

end

end ShowMyGpx
